import Mathlib

/-!
# WhereDidAllMyMoney — account-balance consistency subsystem

Shallow embedding of the balance-mutating code of the repository's backend:

* `app/services/account_service.py` — `get_account_with_lock`, `update_balance`,
  `transfer_balance`;
* `app/api/v1/endpoints/transfers.py` — the `create_transfer` handler
  (its balance-relevant slice);
* `app/api/v1/endpoints/accounts.py` — the `update_account` handler restricted
  to the `balance` key of `AccountUpdate` (the other keys never touch balances);
* `app/api/v1/endpoints/expenses.py` — the balance-relevant slices of
  `create_expense`, `update_expense`, `delete_expense` (the subcategory /
  product / store existence guards only abort the whole transaction with a 404
  before any balance mutation and are orthogonal to every balance property).

Modelling conventions:

* Account and user UUIDs are modelled as `String`s (the source compares
  `str(uuid)` lexicographically; Lean's `String` order is the same
  lexicographic order on the character sequence).
* Python `Decimal` arithmetic is exact; it is modelled by `ℚ`.
* The database session is a `List Account` (primary keys are unique, so the
  interesting states have pairwise distinct ids).  A mutation of a fetched ORM
  row is modelled by rewriting the row with that id in the list; by the
  session identity map two fetches of the same id alias one object, which the
  state-passing style reproduces (the second read sees the first write).
* An `HTTPException` aborts the enclosing transaction, which rolls back, so a
  failing operation returns `Except.error` carrying no successor state: the
  type itself enforces that no partial mutation survives a failure.
* Each successful operation also returns the list of lock-acquisition and
  balance-write events it performed, in order, so that locking discipline and
  lock ordering are statable.
-/

namespace App

inductive AccountType
  | bank
  | credit_card
  | prepaid
  | other
deriving DecidableEq, Repr

/-- The `accounts` row (`app/models/account.py`), balance as exact `ℚ`. -/
structure Account where
  id : String
  user_id : String
  name : String
  account_type : AccountType
  balance : ℚ
  is_primary : Bool
  description : Option String
  sort_order : Int
  badge_color : Option String
deriving DecidableEq, Repr

/-- The database session's view of the `accounts` table. -/
abbrev DB := List Account

/-- Error taxonomy of the core: HTTP 404 and HTTP 400/422 respectively. -/
inductive Err
  | NotFound
  | InvalidArgument
deriving DecidableEq, Repr

/-- Observable effects on account rows: acquiring the `FOR UPDATE` row lock,
and writing a (signed) balance delta. -/
inductive Event
  | lock : String → Event
  | write : String → ℚ → Event
deriving DecidableEq, Repr

def Event.isLock : Event → Bool
  | .lock _ => true
  | .write _ _ => false

/-- The `WHERE Account.id == account_id AND Account.user_id == user_id`
filter used by every account lookup of the core. -/
def accMatch (aid uid : String) (a : Account) : Bool :=
  a.id == aid && a.user_id == uid

/-- `SELECT ... FROM accounts WHERE id = aid AND user_id = uid` (first row). -/
def findAccount (db : DB) (aid uid : String) : Option Account :=
  db.find? (accMatch aid uid)

/-- Mutating the fetched row `account.balance = account.balance + delta`:
the row with id `aid` gets its balance shifted by `delta`, all other rows are
untouched.  (Ids are primary keys, so at most one row matches.) -/
def applyDelta (db : DB) (aid : String) (delta : ℚ) : DB :=
  db.map (fun a => if a.id == aid then { a with balance := a.balance + delta } else a)

/-- `account_service.get_account_with_lock`: look the account up with
`.with_for_update()`; raise 404 when no row matches.  A successful lookup
acquires the row lock (one `Event.lock`); a failed one locks nothing. -/
def get_account_with_lock (db : DB) (aid uid : String) :
    Except Err (Account × List Event) :=
  match findAccount db aid uid with
  | some a => .ok (a, [Event.lock aid])
  | none => .error Err.NotFound

/-- `account_service.update_balance`: fetch with lock, then
`account.balance = Decimal(str(account.balance)) + delta`.  Returns the
updated account object, the new session state and the event trace. -/
def update_balance (db : DB) (aid uid : String) (delta : ℚ) :
    Except Err (Account × DB × List Event) :=
  match get_account_with_lock db aid uid with
  | .error e => .error e
  | .ok (a, evs) =>
      .ok ({ a with balance := a.balance + delta },
           applyDelta db aid delta,
           evs ++ [Event.write aid delta])

/-- `account_service.transfer_balance`: lock both accounts in id order
(`if str(from_account_id) < str(to_account_id)` lock `from` first, else lock
`to` first), then `from_account.balance -= amount` and
`to_account.balance += amount`, and return the two (possibly aliased) account
objects as read from the session after both writes. -/
def transfer_balance (db : DB) (from_id to_id uid : String) (amount : ℚ) :
    Except Err ((Account × Account) × DB × List Event) :=
  match
    (if from_id < to_id then
      match get_account_with_lock db from_id uid with
      | .error e => .error e
      | .ok (_, evF) =>
        match get_account_with_lock db to_id uid with
        | .error e => .error e
        | .ok (_, evT) => .ok (evF ++ evT)
    else
      match get_account_with_lock db to_id uid with
      | .error e => .error e
      | .ok (_, evT) =>
        match get_account_with_lock db from_id uid with
        | .error e => .error e
        | .ok (_, evF) => .ok (evT ++ evF) : Except Err (List Event))
  with
  | .error e => .error e
  | .ok evs =>
    let db2 := applyDelta (applyDelta db from_id (-amount)) to_id amount
    -- re-reading the session models the returned ORM objects (identity map:
    -- both mutations are visible, including the aliased same-id case);
    -- the `none` fallbacks are unreachable once both locks were obtained
    match findAccount db2 from_id uid, findAccount db2 to_id uid with
    | some fa, some ta =>
        .ok ((fa, ta), db2,
             evs ++ [Event.write from_id (-amount), Event.write to_id amount])
    | some _, none => .error Err.NotFound
    | none, _ => .error Err.NotFound

/-- The `POST /transfers` handler `create_transfer`
(`endpoints/transfers.py`), balance-relevant slice.  Pydantic validates
`amount > 0` (`TransferCreate.amount: gt=0`) before the handler body runs;
the handler then does two plain `SELECT`s (no `with_for_update`), raises 404
when either is missing, raises 400 on a same-account transfer, and finally
writes both balances directly.  No lock event is ever emitted. -/
def create_transfer (db : DB) (uid from_id to_id : String) (amount : ℚ) :
    Except Err (DB × List Event) :=
  if amount ≤ 0 then .error Err.InvalidArgument
  else
    match findAccount db from_id uid, findAccount db to_id uid with
    | some fa, some ta =>
      if fa.id == ta.id then .error Err.InvalidArgument
      else
        .ok (applyDelta (applyDelta db from_id (-amount)) to_id amount,
             [Event.write from_id (-amount), Event.write to_id amount])
    | some _, none => .error Err.NotFound
    | none, _ => .error Err.NotFound

/-- The `PATCH /accounts/{id}` handler `update_account`
(`endpoints/accounts.py`) restricted to the `balance` key of `AccountUpdate`
(which the schema does expose): a plain ownership `SELECT` (no lock), then
`setattr(account, "balance", value)` — a direct absolute write, recorded as a
write event with the implied delta `value - old_balance`.  No lock event. -/
def update_account (db : DB) (uid aid : String) (new_balance : Option ℚ) :
    Except Err (DB × List Event) :=
  match findAccount db aid uid with
  | none => .error Err.NotFound
  | some a =>
    match new_balance with
    | none => .ok (db, [])
    | some b =>
        .ok (db.map (fun x => if x.id == aid then { x with balance := b } else x),
             [Event.write aid (b - a.balance)])

/-- The `expenses` row, balance-relevant fields. -/
structure Expense where
  id : String
  user_id : String
  account_id : String
  amount : ℚ
deriving DecidableEq, Repr

/-- Session state for the expense endpoints: accounts and expenses tables. -/
structure St where
  accounts : DB
  expenses : List Expense
deriving DecidableEq, Repr

def findExpense (es : List Expense) (eid uid : String) : Option Expense :=
  es.find? (fun e => e.id == eid && e.user_id == uid)

/-- `POST /expenses` (`create_expense`): verify the account belongs to the
user (404 otherwise), `db.add(expense)`, then
`update_balance(db, account_id, user, -amount)`. -/
def create_expense (st : St) (uid eid account_id : String) (amount : ℚ) :
    Except Err (Expense × St × List Event) :=
  match findAccount st.accounts account_id uid with
  | none => .error Err.NotFound
  | some _ =>
    let exp : Expense := ⟨eid, uid, account_id, amount⟩
    match update_balance st.accounts account_id uid (-amount) with
    | .error e => .error e
    | .ok (_, db2, evs) =>
        .ok (exp, { accounts := db2, expenses := st.expenses ++ [exp] }, evs)

/-- `PATCH /expenses/{id}` (`update_expense`): fetch the expense (404 if
missing); when `amount` or `account_id` is provided, apply
`update_balance(old_account, old_amount - new_amount)` in the same-account
case, else `update_balance(old_account, +old_amount)` then
`update_balance(new_account, -new_amount)`; finally `setattr` the expense
fields. -/
def update_expense (st : St) (uid eid : String)
    (new_amount : Option ℚ) (new_account_id : Option String) :
    Except Err (Expense × St × List Event) :=
  match findExpense st.expenses eid uid with
  | none => .error Err.NotFound
  | some exp =>
    match
      (if new_amount.isSome || new_account_id.isSome then
        let na := new_amount.getD exp.amount
        let naid := new_account_id.getD exp.account_id
        if exp.account_id == naid then
          match update_balance st.accounts exp.account_id uid (exp.amount - na) with
          | .error e => .error e
          | .ok (_, db2, evs) => .ok (db2, evs)
        else
          match update_balance st.accounts exp.account_id uid exp.amount with
          | .error e => .error e
          | .ok (_, db1, evs1) =>
            match update_balance db1 naid uid (-na) with
            | .error e => .error e
            | .ok (_, db2, evs2) => .ok (db2, evs1 ++ evs2)
      else .ok (st.accounts, []) : Except Err (DB × List Event))
    with
    | .error e => .error e
    | .ok (db2, evs) =>
      let exp2 : Expense :=
        { exp with amount := new_amount.getD exp.amount,
                   account_id := new_account_id.getD exp.account_id }
      .ok (exp2,
           { accounts := db2,
             expenses := st.expenses.map
               (fun e => if e.id == eid && e.user_id == uid then exp2 else e) },
           evs)

/-- `DELETE /expenses/{id}` (`delete_expense`): fetch the expense (404 if
missing), `update_balance(db, expense.account_id, user, +expense.amount)`,
then `db.delete(expense)`. -/
def delete_expense (st : St) (uid eid : String) :
    Except Err (St × List Event) :=
  match findExpense st.expenses eid uid with
  | none => .error Err.NotFound
  | some exp =>
    match update_balance st.accounts exp.account_id uid exp.amount with
    | .error e => .error e
    | .ok (_, db2, evs) =>
        .ok ({ accounts := db2,
               expenses := st.expenses.filter
                 (fun e => !(e.id == eid && e.user_id == uid)) }, evs)

/-- Committed balance of account `aid` as seen by its owner `uid`. -/
def balanceOf (db : DB) (aid uid : String) : Option ℚ :=
  (findAccount db aid uid).map Account.balance

/-! ## Sample data for witnesses -/

def accA : Account :=
  { id := "a1", user_id := "u1", name := "checking", account_type := .bank,
    balance := 1000, is_primary := true, description := none,
    sort_order := 0, badge_color := none }

def accB : Account :=
  { id := "b2", user_id := "u1", name := "savings", account_type := .bank,
    balance := 500, is_primary := false, description := none,
    sort_order := 1, badge_color := none }

def db0 : DB := [accA, accB]

example : findAccount db0 "a1" "u1" = some accA := by decide
example : findAccount db0 "a1" "u2" = none := by decide
example : balanceOf db0 "b2" "u1" = some 500 := by decide

/-! ## Supporting lemmas -/

lemma accMatch_id_user {aid uid : String} {a : Account}
    (h : accMatch aid uid a = true) : a.id = aid ∧ a.user_id = uid := by
  simpa [accMatch] using h

lemma findAccount_some {db : DB} {aid uid : String} {a : Account}
    (h : findAccount db aid uid = some a) : a.id = aid ∧ a.user_id = uid :=
  accMatch_id_user (List.find?_some h)

/-- Shifting one row's balance commutes with lookup: the lookup result is the
looked-up row, itself shifted when it is the targeted one. -/
lemma findAccount_applyDelta (db : DB) (aid a u : String) (δ : ℚ) :
    findAccount (applyDelta db aid δ) a u =
      (findAccount db a u).map
        (fun b => if b.id == aid then { b with balance := b.balance + δ } else b) := by
  unfold findAccount applyDelta
  rw [List.find?_map]
  have hcong : (accMatch a u ∘ fun b =>
      if b.id == aid then { b with balance := b.balance + δ } else b) = accMatch a u := by
    funext b
    by_cases hb : b.id == aid <;> simp [accMatch, Function.comp, hb]
  rw [hcong]

lemma applyDelta_mem_of_ne {db : DB} {aid : String} {δ : ℚ} {b : Account}
    (hb : b ∈ db) (hne : b.id ≠ aid) : b ∈ applyDelta db aid δ := by
  have hfix : (if b.id == aid then { b with balance := b.balance + δ } else b) = b := by
    simp [hne]
  have h2 := List.mem_map_of_mem
      (fun x => if x.id == aid then { x with balance := x.balance + δ } else x) hb
  simp only [applyDelta]
  simpa only [hfix] using h2

lemma applyDelta_mem_of_eq {db : DB} {aid : String} {δ : ℚ} {b : Account}
    (hb : b ∈ db) (heq : b.id = aid) :
    { b with balance := b.balance + δ } ∈ applyDelta db aid δ := by
  have hfix : (if b.id == aid then { b with balance := b.balance + δ } else b)
      = { b with balance := b.balance + δ } := by simp [heq]
  have h2 := List.mem_map_of_mem
      (fun x => if x.id == aid then { x with balance := x.balance + δ } else x) hb
  simp only [applyDelta]
  simpa only [hfix] using h2

/-- Full evaluation of `update_balance` on a successful lookup. -/
lemma update_balance_eq {db : DB} {aid uid : String} {a : Account} (δ : ℚ)
    (h : findAccount db aid uid = some a) :
    update_balance db aid uid δ =
      .ok ({ a with balance := a.balance + δ }, applyDelta db aid δ,
           [Event.lock aid, Event.write aid δ]) := by
  simp [update_balance, get_account_with_lock, h]

lemma update_balance_none {db : DB} {aid uid : String} (δ : ℚ)
    (h : findAccount db aid uid = none) :
    update_balance db aid uid δ = .error Err.NotFound := by
  simp [update_balance, get_account_with_lock, h]

/-- Full evaluation of `transfer_balance` between two distinct owned
accounts: both locks (in id order), then the debit and the credit. -/
lemma transfer_balance_eq {db : DB} {fid tid uid : String} (amt : ℚ)
    {fa ta : Account}
    (hne : fid ≠ tid)
    (hf : findAccount db fid uid = some fa)
    (ht : findAccount db tid uid = some ta) :
    transfer_balance db fid tid uid amt =
      .ok (({ fa with balance := fa.balance + -amt },
            { ta with balance := ta.balance + amt }),
           applyDelta (applyDelta db fid (-amt)) tid amt,
           (if fid < tid then [Event.lock fid, Event.lock tid]
            else [Event.lock tid, Event.lock fid])
             ++ [Event.write fid (-amt), Event.write tid amt]) := by
  obtain ⟨hfa_id, _⟩ := findAccount_some hf
  obtain ⟨hta_id, _⟩ := findAccount_some ht
  have hf2 : findAccount (applyDelta (applyDelta db fid (-amt)) tid amt) fid uid =
      some { fa with balance := fa.balance + -amt } := by
    rw [findAccount_applyDelta, findAccount_applyDelta, hf]
    simp [hfa_id, hne]
  have ht2 : findAccount (applyDelta (applyDelta db fid (-amt)) tid amt) tid uid =
      some { ta with balance := ta.balance + amt } := by
    rw [findAccount_applyDelta, findAccount_applyDelta, ht]
    simp [hta_id, Ne.symm hne]
  by_cases hlt : fid < tid
  · simp [transfer_balance, get_account_with_lock, hf, ht, hlt, hf2, ht2]
  · simp [transfer_balance, get_account_with_lock, hf, ht, hlt, hf2, ht2]

/-- Re-shifting a row's balance back by the opposite delta restores the row. -/
lemma reupdate_cancel (b : Account) (aid : String) (amt : ℚ) :
    (if ((if b.id == aid then { b with balance := b.balance + -amt } else b) : Account).id == aid
     then { (if b.id == aid then { b with balance := b.balance + -amt } else b) with
              balance := ((if b.id == aid then { b with balance := b.balance + -amt } else b) : Account).balance + amt }
     else (if b.id == aid then { b with balance := b.balance + -amt } else b)) = b := by
  by_cases hb : b.id == aid
  · cases b
    simp [hb, neg_add_cancel_right]
  · simp [hb]

/-- A debit followed by an equal credit of the same account is the identity
on the accounts table (the aliased same-account transfer case). -/
lemma applyDelta_cancel (db : DB) (aid : String) (amt : ℚ) :
    applyDelta (applyDelta db aid (-amt)) aid amt = db := by
  induction db with
  | nil => rfl
  | cons b tl ih =>
    simp only [applyDelta, List.map_cons, List.map_map] at ih ⊢
    refine congrArg₂ List.cons ?_ ih
    simpa using reupdate_cancel b aid amt

/-! ## Claim theorems -/

/-- C1: for every account owned by the acting user and every signed decimal
delta (positive, negative, or zero — `δ` ranges over all of `ℚ`, so deltas
that drive the balance negative are included), `update_balance` returns the
account with its balance replaced by `old_balance + δ`; no branch inspects
the sign of the result, so no clamping or validation rejects a negative
resulting balance. -/
theorem update_balance_adds_delta (db : DB) (aid uid : String) (δ : ℚ)
    (a : Account) (h : findAccount db aid uid = some a) :
    update_balance db aid uid δ =
      .ok ({ a with balance := a.balance + δ }, applyDelta db aid δ,
           [Event.lock aid, Event.write aid δ]) :=
  update_balance_eq δ h

/-- Witness for C1 at a concrete input, with a delta that drives the balance
negative (1000 + (-1250) = -250 < 0) and is still accepted. -/
theorem update_balance_adds_delta_witness :
    findAccount db0 "a1" "u1" = some accA ∧
    update_balance db0 "a1" "u1" (-1250) =
      .ok ({ accA with balance := accA.balance + -1250 }, applyDelta db0 "a1" (-1250),
           [Event.lock "a1", Event.write "a1" (-1250)]) ∧
    accA.balance + -1250 < 0 :=
  ⟨by decide, update_balance_adds_delta db0 "a1" "u1" (-1250) accA (by decide),
   by norm_num [accA]⟩

/-- C6: when no account matches `(account_id, user_id)` — the account is
missing or belongs to another user, which yield the same `none` lookup and
are therefore indistinguishable to the caller — `update_balance` fails with
`NotFound`.  The error constructor carries no successor state: the enclosing
transaction rolls back, so every account's balance is left unchanged. -/
theorem update_balance_not_found (db : DB) (aid uid : String) (δ : ℚ)
    (h : findAccount db aid uid = none) :
    update_balance db aid uid δ = .error Err.NotFound :=
  update_balance_none δ h

/-- Witness for C6 at concrete inputs, covering both a missing account id and
an existing account addressed by the wrong user. -/
theorem update_balance_not_found_witness :
    findAccount db0 "zz" "u1" = none ∧
    update_balance db0 "zz" "u1" 5 = .error Err.NotFound ∧
    findAccount db0 "a1" "u9" = none ∧
    update_balance db0 "a1" "u9" 5 = .error Err.NotFound :=
  ⟨by decide, update_balance_not_found db0 "zz" "u1" 5 (by decide), by decide,
   update_balance_not_found db0 "a1" "u9" 5 (by decide)⟩

/-- C9: a successful `update_balance` modifies only the balance field of the
single targeted account: the returned account agrees with the old one on
every other field (`name`, `account_type`, `is_primary`, `description`,
`sort_order`, `badge_color`, and also `id` and `user_id`), every row whose id
differs from the target survives unchanged, and no row is added or removed. -/
theorem update_balance_frame (db : DB) (aid uid : String) (δ : ℚ)
    (a : Account) (h : findAccount db aid uid = some a) :
    ∃ a' : Account,
      update_balance db aid uid δ =
        .ok (a', applyDelta db aid δ, [Event.lock aid, Event.write aid δ]) ∧
      a'.id = a.id ∧ a'.user_id = a.user_id ∧ a'.name = a.name ∧
      a'.account_type = a.account_type ∧ a'.is_primary = a.is_primary ∧
      a'.description = a.description ∧ a'.sort_order = a.sort_order ∧
      a'.badge_color = a.badge_color ∧ a'.balance = a.balance + δ ∧
      (∀ b ∈ db, b.id ≠ aid → b ∈ applyDelta db aid δ) ∧
      (∀ b ∈ db, b.id = aid → { b with balance := b.balance + δ } ∈ applyDelta db aid δ) ∧
      (applyDelta db aid δ).length = db.length :=
  ⟨{ a with balance := a.balance + δ }, update_balance_eq δ h,
   rfl, rfl, rfl, rfl, rfl, rfl, rfl, rfl, rfl,
   fun _ hb hbne => applyDelta_mem_of_ne hb hbne,
   fun _ hb hbeq => applyDelta_mem_of_eq hb hbeq,
   by simp [applyDelta]⟩

/-- Witness for C9 at a concrete input. -/
theorem update_balance_frame_witness :
    ∃ a' : Account,
      update_balance db0 "a1" "u1" 7 =
        .ok (a', applyDelta db0 "a1" 7, [Event.lock "a1", Event.write "a1" 7]) ∧
      a'.id = accA.id ∧ a'.user_id = accA.user_id ∧ a'.name = accA.name ∧
      a'.account_type = accA.account_type ∧ a'.is_primary = accA.is_primary ∧
      a'.description = accA.description ∧ a'.sort_order = accA.sort_order ∧
      a'.badge_color = accA.badge_color ∧ a'.balance = accA.balance + 7 ∧
      (∀ b ∈ db0, b.id ≠ "a1" → b ∈ applyDelta db0 "a1" 7) ∧
      (∀ b ∈ db0, b.id = "a1" → { b with balance := b.balance + 7 } ∈ applyDelta db0 "a1" 7) ∧
      (applyDelta db0 "a1" 7).length = db0.length :=
  update_balance_frame db0 "a1" "u1" 7 accA (by decide)

/-- C10: `transfer_balance` itself performs no same-account and no positivity
check: invoked with `from_account_id = to_account_id` on an account owned by
the user it raises no error, the row is locked twice, the debit and the
credit land on the same (session-aliased) row and cancel, the accounts table
is returned exactly as it was, and the very same account record is returned
as both components of the result pair. -/
theorem transfer_balance_same_account (db : DB) (aid uid : String) (amt : ℚ)
    (a : Account) (h : findAccount db aid uid = some a) :
    transfer_balance db aid aid uid amt =
      .ok ((a, a), db,
           [Event.lock aid, Event.lock aid,
            Event.write aid (-amt), Event.write aid amt]) := by
  have hlt : ¬ aid < aid := lt_irrefl aid
  have hdb : applyDelta (applyDelta db aid (-amt)) aid amt = db :=
    applyDelta_cancel db aid amt
  simp [transfer_balance, get_account_with_lock, h, hlt, hdb]

/-- Witness for C10 at a concrete input: a 77-unit same-account transfer on
the 1000-balance account leaves the table untouched. -/
theorem transfer_balance_same_account_witness :
    findAccount db0 "a1" "u1" = some accA ∧
    transfer_balance db0 "a1" "a1" "u1" 77 =
      .ok ((accA, accA), db0,
           [Event.lock "a1", Event.lock "a1",
            Event.write "a1" (-77), Event.write "a1" 77]) :=
  ⟨by decide, transfer_balance_same_account db0 "a1" "u1" 77 accA (by decide)⟩

/-- C2: for every pair of distinct accounts owned by the user and every
amount, `transfer_balance` debits `from` by the amount and credits `to` by
the amount; its successor state is exactly the one produced by two successive
Balance Update Protocol calls (`update_balance` with `-amount`, then with
`+amount`), and its event trace holds both lock acquisitions before either
balance write.  Atomicity is structural: the only successor state the
operation can produce carries both deltas, and on any failure the `error`
constructor carries no state at all, so no reachable state has only one side
changed. -/
theorem transfer_balance_two_updates (db : DB) (fid tid uid : String)
    (amt : ℚ) (fa ta : Account)
    (hne : fid ≠ tid)
    (hf : findAccount db fid uid = some fa)
    (ht : findAccount db tid uid = some ta) :
    ∃ fa' ta' evs,
      transfer_balance db fid tid uid amt =
        .ok ((fa', ta'), applyDelta (applyDelta db fid (-amt)) tid amt, evs) ∧
      fa'.balance = fa.balance - amt ∧
      ta'.balance = ta.balance + amt ∧
      (∃ x evs1 y evs2,
        update_balance db fid uid (-amt) =
          .ok (x, applyDelta db fid (-amt), evs1) ∧
        update_balance (applyDelta db fid (-amt)) tid uid amt =
          .ok (y, applyDelta (applyDelta db fid (-amt)) tid amt, evs2)) ∧
      (∃ l1 l2, evs = [Event.lock l1, Event.lock l2,
                       Event.write fid (-amt), Event.write tid amt] ∧
                ((l1 = fid ∧ l2 = tid) ∨ (l1 = tid ∧ l2 = fid))) := by
  obtain ⟨hta_id, _⟩ := findAccount_some ht
  have h1 : findAccount (applyDelta db fid (-amt)) tid uid = some ta := by
    rw [findAccount_applyDelta, ht]
    simp [hta_id, Ne.symm hne]
  refine ⟨{ fa with balance := fa.balance + -amt },
    { ta with balance := ta.balance + amt },
    (if fid < tid then [Event.lock fid, Event.lock tid]
     else [Event.lock tid, Event.lock fid])
      ++ [Event.write fid (-amt), Event.write tid amt],
    transfer_balance_eq amt hne hf ht,
    (sub_eq_add_neg fa.balance amt).symm, rfl,
    ⟨_, _, _, _, update_balance_eq (-amt) hf, update_balance_eq amt h1⟩, ?_⟩
  by_cases hlt : fid < tid
  · exact ⟨fid, tid, by simp [hlt], Or.inl ⟨rfl, rfl⟩⟩
  · exact ⟨tid, fid, by simp [hlt], Or.inr ⟨rfl, rfl⟩⟩

/-- Witness for C2 at a concrete input: transfer 300 from the 1000-balance
account to the 500-balance account. -/
theorem transfer_balance_two_updates_witness :
    ∃ fa' ta' evs,
      transfer_balance db0 "a1" "b2" "u1" 300 =
        .ok ((fa', ta'), applyDelta (applyDelta db0 "a1" (-300)) "b2" 300, evs) ∧
      fa'.balance = accA.balance - 300 ∧
      ta'.balance = accB.balance + 300 ∧
      (∃ x evs1 y evs2,
        update_balance db0 "a1" "u1" (-300) =
          .ok (x, applyDelta db0 "a1" (-300), evs1) ∧
        update_balance (applyDelta db0 "a1" (-300)) "b2" "u1" 300 =
          .ok (y, applyDelta (applyDelta db0 "a1" (-300)) "b2" 300, evs2)) ∧
      (∃ l1 l2, evs = [Event.lock l1, Event.lock l2,
                       Event.write "a1" (-300), Event.write "b2" 300] ∧
                ((l1 = "a1" ∧ l2 = "b2") ∨ (l1 = "b2" ∧ l2 = "a1"))) :=
  transfer_balance_two_updates db0 "a1" "b2" "u1" 300 accA accB
    (by decide) (by decide) (by decide)

/-- C4: the Transfer Protocol locks the two accounts in a fixed, globally
consistent order obtained by comparing the id strings lexicographically,
never in caller-supplied order: for distinct owned accounts `a` and `b`,
`transfer_balance` called as `a → b` and as `b → a` acquires the two row
locks in the same relative order, the smaller id string first. -/
theorem transfer_balance_lock_order (db : DB) (a b uid : String)
    (amt amt' : ℚ) (fa fb : Account) (hne : a ≠ b)
    (ha : findAccount db a uid = some fa)
    (hb : findAccount db b uid = some fb) :
    ∃ r1 db1 evs1 r2 db2 evs2,
      transfer_balance db a b uid amt = .ok (r1, db1, evs1) ∧
      transfer_balance db b a uid amt' = .ok (r2, db2, evs2) ∧
      evs1.filter Event.isLock = evs2.filter Event.isLock ∧
      evs1.filter Event.isLock =
        (if a < b then [Event.lock a, Event.lock b]
         else [Event.lock b, Event.lock a]) := by
  refine ⟨_, _, _, _, _, _,
    transfer_balance_eq amt hne ha hb,
    transfer_balance_eq amt' (Ne.symm hne) hb ha, ?_, ?_⟩
  · rcases lt_trichotomy a b with h | h | h
    · have h2 : ¬ b < a := not_lt_of_gt h
      have h1 : a < b := h
      simp [h1, h2, Event.isLock]
    · exact absurd h hne
    · have h2 : ¬ a < b := not_lt_of_gt h
      simp [h, h2, Event.isLock]
  · rcases lt_trichotomy a b with h | h | h
    · simp [h, Event.isLock]
    · exact absurd h hne
    · have h2 : ¬ a < b := not_lt_of_gt h
      simp [h2, Event.isLock]

/-- Witness for C4 at a concrete input: "a1" < "b2", so both call directions
lock "a1" first. -/
theorem transfer_balance_lock_order_witness :
    ∃ r1 db1 evs1 r2 db2 evs2,
      transfer_balance db0 "a1" "b2" "u1" 300 = .ok (r1, db1, evs1) ∧
      transfer_balance db0 "b2" "a1" "u1" 40 = .ok (r2, db2, evs2) ∧
      evs1.filter Event.isLock = evs2.filter Event.isLock ∧
      evs1.filter Event.isLock =
        (if "a1" < "b2" then [Event.lock "a1", Event.lock "b2"]
         else [Event.lock "b2", Event.lock "a1"]) :=
  transfer_balance_lock_order db0 "a1" "b2" "u1" 300 40 accA accB
    (by decide) (by decide) (by decide)

/-! ## Evaluation lemmas for the `create_transfer` endpoint -/

lemma create_transfer_nonpos {db : DB} {uid f t : String} {amt : ℚ}
    (h : amt ≤ 0) :
    create_transfer db uid f t amt = .error Err.InvalidArgument := by
  simp [create_transfer, h]

lemma create_transfer_same_owned {db : DB} {uid f : String} {amt : ℚ}
    {a : Account} (h : 0 < amt) (hfind : findAccount db f uid = some a) :
    create_transfer db uid f f amt = .error Err.InvalidArgument := by
  simp [create_transfer, not_le.mpr h, hfind]

lemma create_transfer_same_missing {db : DB} {uid f : String} {amt : ℚ}
    (h : 0 < amt) (hfind : findAccount db f uid = none) :
    create_transfer db uid f f amt = .error Err.NotFound := by
  simp [create_transfer, not_le.mpr h, hfind]

lemma create_transfer_ok_evs {db : DB} {uid f t : String} {amt : ℚ}
    {db2 : DB} {evs : List Event}
    (h : create_transfer db uid f t amt = .ok (db2, evs)) :
    evs = [Event.write f (-amt), Event.write t amt] := by
  unfold create_transfer at h
  split at h
  · simp at h
  · split at h
    · split at h
      · simp at h
      · simp at h
        exact h.2.symm
    · simp at h
    · simp at h

lemma create_transfer_ok {db : DB} {uid f t : String} {amt : ℚ}
    {fa ta : Account} (hpos : 0 < amt)
    (hf : findAccount db f uid = some fa)
    (ht : findAccount db t uid = some ta)
    (hne : fa.id ≠ ta.id) :
    create_transfer db uid f t amt =
      .ok (applyDelta (applyDelta db f (-amt)) t amt,
           [Event.write f (-amt), Event.write t amt]) := by
  simp [create_transfer, not_le.mpr hpos, hf, ht, hne]

/-- C3 (refuted by the code): the lock-acquiring path is *not* the exclusive
mechanism for mutating balances.  The `POST /transfers` handler succeeds,
performs both balance writes, and its event trace contains no lock event at
all (it never calls `get_account_with_lock` / `update_balance` and its
`SELECT`s carry no `FOR UPDATE`); likewise `PATCH /accounts/{id}` with a
`balance` field writes the balance directly with no lock event. -/
theorem balance_writes_bypass_lock_path :
    (∃ db2 evs, create_transfer db0 "u1" "a1" "b2" 300 = .ok (db2, evs) ∧
       evs ≠ [] ∧ evs.filter Event.isLock = [] ∧
       balanceOf db2 "a1" "u1" = some 700 ∧ balanceOf db2 "b2" "u1" = some 800) ∧
    (∃ db2 evs, update_account db0 "u1" "a1" (some 42) = .ok (db2, evs) ∧
       evs ≠ [] ∧ evs.filter Event.isLock = [] ∧
       balanceOf db2 "a1" "u1" = some 42) := by
  have h0 : findAccount db0 "a1" "u1" = some accA := by decide
  have hb0 : findAccount db0 "b2" "u1" = some accB := by decide
  have ne1 : ("b2" : String) ≠ "a1" := by decide
  have ne2 : ("a1" : String) ≠ "b2" := by decide
  have hdb2 : applyDelta (applyDelta db0 "a1" (-300)) "b2" 300 =
      [{ accA with balance := 700 }, { accB with balance := 800 }] := by
    norm_num [applyDelta, db0, accA, accB, ne1, ne2]
  have hua : update_account db0 "u1" "a1" (some 42) =
      .ok ([{ accA with balance := 42 }, accB],
           [Event.write "a1" (42 - accA.balance)]) := by
    simp only [update_account, h0]
    norm_num [db0, accA, accB, ne1, ne2]
  constructor
  · refine ⟨_, _, create_transfer_ok (by norm_num) h0 hb0 (by decide),
      by simp, by simp [Event.isLock], ?_, ?_⟩
    · rw [hdb2]
      norm_num [balanceOf, findAccount, accMatch, accA, accB, ne1, ne2]
    · rw [hdb2]
      norm_num [balanceOf, findAccount, accMatch, accA, accB, ne1, ne2]
  · refine ⟨_, _, hua, by simp, by simp [Event.isLock], ?_⟩
    norm_num [balanceOf, findAccount, accMatch, accA, accB, ne1, ne2]

/-- C5 counterexample: the claim says every same-account transfer request is
rejected with `InvalidArgument`, but a same-account request naming an id that
matches no account of the user is rejected with `NotFound` instead (the 404
ownership check at transfers.py:75 runs before the same-account check at
transfers.py:81). -/
theorem create_transfer_same_missing_not_invalid :
    create_transfer db0 "u1" "zz" "zz" 100 = .error Err.NotFound ∧
    Err.NotFound ≠ Err.InvalidArgument :=
  ⟨create_transfer_same_missing (by norm_num) (by decide), by decide⟩

/-- C5 (amended): a transfer request with a non-positive amount is rejected
with `InvalidArgument` (schema validation, before the handler body); a
same-account request naming an account owned by the user is rejected with
`InvalidArgument`; a same-account request whose id matches no account of the
user is rejected with `NotFound`.  In every case the rejection happens before
any lock acquisition and leaves every balance unchanged: a successful run
acquires no lock at all (last conjunct), and every rejection returns `error`,
which carries no successor state. -/
theorem create_transfer_rejections (db : DB) (uid f t : String) (amt : ℚ) :
    (amt ≤ 0 → create_transfer db uid f t amt = .error Err.InvalidArgument) ∧
    (0 < amt → f = t → (∃ a, findAccount db f uid = some a) →
        create_transfer db uid f t amt = .error Err.InvalidArgument) ∧
    (0 < amt → f = t → findAccount db f uid = none →
        create_transfer db uid f t amt = .error Err.NotFound) ∧
    (∀ db2 evs, create_transfer db uid f t amt = .ok (db2, evs) →
        evs.filter Event.isLock = []) := by
  refine ⟨fun h => create_transfer_nonpos h, ?_, ?_, ?_⟩
  · rintro h rfl ⟨a, hfind⟩
    exact create_transfer_same_owned h hfind
  · rintro h rfl hfind
    exact create_transfer_same_missing h hfind
  · intro db2 evs h
    rw [create_transfer_ok_evs h]
    simp [Event.isLock]

/-- Witness for C5's amended theorem at concrete inputs: a zero-amount
request and an owned same-account request are both `InvalidArgument`. -/
theorem create_transfer_rejections_witness :
    create_transfer db0 "u1" "a1" "b2" 0 = .error Err.InvalidArgument ∧
    create_transfer db0 "u1" "a1" "a1" 100 = .error Err.InvalidArgument :=
  ⟨(create_transfer_rejections db0 "u1" "a1" "b2" 0).1 (by norm_num),
   (create_transfer_rejections db0 "u1" "a1" "a1" 100).2.1 (by norm_num) rfl
     ⟨accA, by decide⟩⟩

/-! ## Expense flow claims -/

def exp0 : Expense := ⟨"e1", "u1", "a1", 150⟩

def st0 : St := ⟨db0, [exp0]⟩

def exp200 : Expense := ⟨"e1", "u1", "a1", 200⟩

def accA850 : Account :=
  { id := "a1", user_id := "u1", name := "checking", account_type := .bank,
    balance := 850, is_primary := true, description := none,
    sort_order := 0, badge_color := none }

def accA800 : Account :=
  { id := "a1", user_id := "u1", name := "checking", account_type := .bank,
    balance := 800, is_primary := true, description := none,
    sort_order := 0, badge_color := none }

def accA1000 : Account :=
  { id := "a1", user_id := "u1", name := "checking", account_type := .bank,
    balance := 1000, is_primary := true, description := none,
    sort_order := 0, badge_color := none }

lemma find?_append_of_none {α : Type} {p : α → Bool} {l1 l2 : List α}
    (h : l1.find? p = none) : (l1 ++ l2).find? p = l2.find? p := by
  induction l1 with
  | nil => simp
  | cons x xs ih =>
    by_cases hx : p x
    · rw [List.find?_cons_of_pos _ hx] at h
      exact absurd h (by simp)
    · rw [List.find?_cons_of_neg _ hx] at h
      rw [List.cons_append, List.find?_cons_of_neg _ hx]
      exact ih h

/-- Full evaluation of the same-account `update_expense` case. -/
lemma update_expense_same_eq (st : St) {uid eid : String} {exp : Expense}
    {a : Account} (na : ℚ)
    (hexp : findExpense st.expenses eid uid = some exp)
    (ha : findAccount st.accounts exp.account_id uid = some a) :
    update_expense st uid eid (some na) none =
      .ok ({ exp with amount := na, account_id := exp.account_id },
           { accounts := applyDelta st.accounts exp.account_id (exp.amount - na),
             expenses := st.expenses.map (fun e => if e.id == eid && e.user_id == uid then
               { exp with amount := na, account_id := exp.account_id } else e) },
           [Event.lock exp.account_id, Event.write exp.account_id (exp.amount - na)]) := by
  have h1 := update_balance_eq (exp.amount - na) ha
  simp [update_expense, hexp, h1]

/-- C7: updating an expense applies exactly the net deltas implied by the
change: with the account unchanged, one `update_balance` with delta
`old_amount - new_amount` on that account; with the account changed,
`old_amount` is credited back to the old account and `new_amount` is debited
from the new account. -/
theorem update_expense_deltas (st : St) (uid eid : String) (exp : Expense)
    (hexp : findExpense st.expenses eid uid = some exp) :
    (∀ (na : ℚ) (a : Account),
       findAccount st.accounts exp.account_id uid = some a →
       ∃ exp2 st2 evs,
         update_expense st uid eid (some na) none = .ok (exp2, st2, evs) ∧
         st2.accounts = applyDelta st.accounts exp.account_id (exp.amount - na) ∧
         evs = [Event.lock exp.account_id, Event.write exp.account_id (exp.amount - na)] ∧
         exp2.amount = na ∧ exp2.account_id = exp.account_id) ∧
    (∀ (na : ℚ) (naid : String) (aOld aNew : Account),
       naid ≠ exp.account_id →
       findAccount st.accounts exp.account_id uid = some aOld →
       findAccount st.accounts naid uid = some aNew →
       ∃ exp2 st2 evs,
         update_expense st uid eid (some na) (some naid) = .ok (exp2, st2, evs) ∧
         st2.accounts =
           applyDelta (applyDelta st.accounts exp.account_id exp.amount) naid (-na) ∧
         evs = [Event.lock exp.account_id, Event.write exp.account_id exp.amount,
                Event.lock naid, Event.write naid (-na)] ∧
         exp2.amount = na ∧ exp2.account_id = naid) := by
  constructor
  · intro na a ha
    have h1 := update_balance_eq (exp.amount - na) ha
    refine ⟨{ exp with amount := na, account_id := exp.account_id },
      { accounts := applyDelta st.accounts exp.account_id (exp.amount - na),
        expenses := st.expenses.map (fun e => if e.id == eid && e.user_id == uid then
          { exp with amount := na, account_id := exp.account_id } else e) },
      [Event.lock exp.account_id, Event.write exp.account_id (exp.amount - na)],
      ?_, rfl, rfl, rfl, rfl⟩
    simp [update_expense, hexp, h1]
  · intro na naid aOld aNew hne hold hnew
    obtain ⟨hnid, _⟩ := findAccount_some hnew
    have h1 := update_balance_eq exp.amount hold
    have hnew1 : findAccount (applyDelta st.accounts exp.account_id exp.amount) naid uid
        = some aNew := by
      rw [findAccount_applyDelta, hnew]
      simp [hnid, hne]
    have h2 := update_balance_eq (-na) hnew1
    have hcond : (exp.account_id == naid) = false :=
      beq_eq_false_iff_ne.mpr (Ne.symm hne)
    refine ⟨{ exp with amount := na, account_id := naid },
      { accounts := applyDelta (applyDelta st.accounts exp.account_id exp.amount) naid (-na),
        expenses := st.expenses.map (fun e => if e.id == eid && e.user_id == uid then
          { exp with amount := na, account_id := naid } else e) },
      [Event.lock exp.account_id, Event.write exp.account_id exp.amount,
       Event.lock naid, Event.write naid (-na)],
      ?_, rfl, rfl, rfl, rfl⟩
    simp [update_expense, hexp, hcond, h1, h2]

/-- Witness for C7 at a concrete input: the expense of 150 on the
1000-balance account has its amount updated to 200 (same account), a single
delta of 150 - 200. -/
theorem update_expense_deltas_witness :
    ∃ exp2 st2 evs,
      update_expense st0 "u1" "e1" (some 200) none = .ok (exp2, st2, evs) ∧
      st2.accounts = applyDelta st0.accounts exp0.account_id (exp0.amount - 200) ∧
      evs = [Event.lock exp0.account_id, Event.write exp0.account_id (exp0.amount - 200)] ∧
      exp2.amount = 200 ∧ exp2.account_id = exp0.account_id :=
  (update_expense_deltas st0 "u1" "e1" exp0 (by decide)).1 200 accA (by decide)

/-- C8: creating an expense of `amt` decreases the account's balance by
`amt`, and deleting that expense restores it, so create-then-delete is the
identity on the accounts table; concretely, from balance 1000, an expense of
150 yields 850, updating its amount to 200 yields 800, and deleting it
yields 1000. -/
theorem expense_create_delete_roundtrip :
    (∀ (st : St) (uid eid aid : String) (amt : ℚ) (a : Account),
       findAccount st.accounts aid uid = some a →
       findExpense st.expenses eid uid = none →
       ∃ exp st1 evs1 st2 evs2,
         create_expense st uid eid aid amt = .ok (exp, st1, evs1) ∧
         balanceOf st1.accounts aid uid = some (a.balance - amt) ∧
         delete_expense st1 uid eid = .ok (st2, evs2) ∧
         st2.accounts = st.accounts ∧
         balanceOf st2.accounts aid uid = some a.balance) ∧
    (∃ e1 stA e2 stB stC evs1 evs2 evs3,
       create_expense ⟨[accA], []⟩ "u1" "e1" "a1" 150 = .ok (e1, stA, evs1) ∧
       balanceOf stA.accounts "a1" "u1" = some 850 ∧
       update_expense stA "u1" "e1" (some 200) none = .ok (e2, stB, evs2) ∧
       balanceOf stB.accounts "a1" "u1" = some 800 ∧
       delete_expense stB "u1" "e1" = .ok (stC, evs3) ∧
       balanceOf stC.accounts "a1" "u1" = some 1000) := by
  constructor
  · intro st uid eid aid amt a ha hnone
    obtain ⟨haid, _⟩ := findAccount_some ha
    have h1 := update_balance_eq (-amt) ha
    have hfind1 : findAccount (applyDelta st.accounts aid (-amt)) aid uid
        = some { a with balance := a.balance + -amt } := by
      rw [findAccount_applyDelta, ha]
      simp [haid]
    have hfexp : findExpense (st.expenses ++ [(⟨eid, uid, aid, amt⟩ : Expense)]) eid uid
        = some (⟨eid, uid, aid, amt⟩ : Expense) := by
      unfold findExpense at hnone ⊢
      rw [find?_append_of_none hnone]
      simp
    have h2 := update_balance_eq amt hfind1
    refine ⟨(⟨eid, uid, aid, amt⟩ : Expense),
      { accounts := applyDelta st.accounts aid (-amt),
        expenses := st.expenses ++ [(⟨eid, uid, aid, amt⟩ : Expense)] },
      [Event.lock aid, Event.write aid (-amt)],
      { accounts := applyDelta (applyDelta st.accounts aid (-amt)) aid amt,
        expenses := (st.expenses ++ [(⟨eid, uid, aid, amt⟩ : Expense)]).filter
          (fun e => !(e.id == eid && e.user_id == uid)) },
      [Event.lock aid, Event.write aid amt],
      ?_, ?_, ?_, applyDelta_cancel st.accounts aid amt, ?_⟩
    · simp [create_expense, ha, h1]
    · simp [balanceOf, hfind1, sub_eq_add_neg]
    · simp [delete_expense, hfexp, h2]
    · rw [applyDelta_cancel st.accounts aid amt]
      simp [balanceOf, ha]
  · have c0 : findAccount [accA] "a1" "u1" = some accA := by decide
    have c1 := update_balance_eq (-(150 : ℚ)) c0
    have hlitA : applyDelta [accA] "a1" (-(150 : ℚ)) = [accA850] := by
      norm_num [applyDelta, accA, accA850]
    have hcreate : create_expense ⟨[accA], []⟩ "u1" "e1" "a1" 150 =
        .ok (exp0, ⟨[accA850], [exp0]⟩,
             [Event.lock "a1", Event.write "a1" (-150)]) := by
      simp [create_expense, c0, c1, hlitA, exp0]
    have d0 : findExpense [exp0] "e1" "u1" = some exp0 := by decide
    have d1 : findAccount [accA850] "a1" "u1" = some accA850 := by decide
    have hupd0 := update_expense_same_eq ⟨[accA850], [exp0]⟩ (200 : ℚ) d0 d1
    have hlitB : applyDelta [accA850] "a1" ((150 : ℚ) - 200) = [accA800] := by
      norm_num [applyDelta, accA850, accA800]
    have hupd : update_expense ⟨[accA850], [exp0]⟩ "u1" "e1" (some 200) none =
        .ok (exp200, ⟨[accA800], [exp200]⟩,
             [Event.lock "a1", Event.write "a1" ((150 : ℚ) - 200)]) := by
      rw [hupd0]
      simp [exp0, exp200, hlitB]
    have E0 : findExpense [exp200] "e1" "u1" = some exp200 := by decide
    have E1 : findAccount [accA800] "a1" "u1" = some accA800 := by decide
    have E2 := update_balance_eq (200 : ℚ) E1
    have hlitC : applyDelta [accA800] "a1" (200 : ℚ) = [accA1000] := by
      norm_num [applyDelta, accA800, accA1000]
    have p1 : exp200.account_id = "a1" := rfl
    have p2 : exp200.amount = (200 : ℚ) := rfl
    have p3 : exp200.id = "e1" := rfl
    have p4 : exp200.user_id = "u1" := rfl
    have hdel : delete_expense ⟨[accA800], [exp200]⟩ "u1" "e1" =
        .ok (⟨[accA1000], []⟩, [Event.lock "a1", Event.write "a1" 200]) := by
      simp [delete_expense, E0, p1, p2, p3, p4, E2, hlitC]
    refine ⟨exp0, ⟨[accA850], [exp0]⟩, exp200, ⟨[accA800], [exp200]⟩,
      ⟨[accA1000], []⟩, _, _, _, hcreate, ?_, hupd, ?_, hdel, ?_⟩
    · decide
    · decide
    · decide

/-- Witness for C8's general clause at a concrete input: an expense of 150 on
the 1000-balance account, created and then deleted. -/
theorem expense_create_delete_roundtrip_witness :
    ∃ exp st1 evs1 st2 evs2,
      create_expense ⟨db0, []⟩ "u1" "e9" "a1" 150 = .ok (exp, st1, evs1) ∧
      balanceOf st1.accounts "a1" "u1" = some (accA.balance - 150) ∧
      delete_expense st1 "u1" "e9" = .ok (st2, evs2) ∧
      st2.accounts = db0 ∧
      balanceOf st2.accounts "a1" "u1" = some accA.balance :=
  expense_create_delete_roundtrip.1 ⟨db0, []⟩ "u1" "e9" "a1" 150 accA
    (by decide) (by decide)

end App
